import Mathlib

/-!
Verification of the duration-formatting and rescheduling logic of
`src/src/components/TimedMsg.vue`.

The script section of that single-file component consists of a pure helper
`getDurationData` plus a Vue component whose relevant members are the
computed property `wrapClass` and the methods `updateStrings` and `preset`.
All of them are embedded below.  JavaScript numbers are modelled as `Int`
(`Math.floor` of a quotient becomes `Int.fdiv`, the remainder operator on
the non-negative values that occur becomes `Int.emod`); the JS `NaN` that a
failed `Date` parse produces is modelled as `none : Option Int`, with the
comparisons that involve it evaluating to `false` exactly as in JS.
-/

namespace TimedMsg

/-- seconds-per-unit table; `multipliers` in the source
(`[31557600, 2629800, 604800, 86400, 3600, 60]`, line 51). -/
def multipliers : List Int := [31557600, 2629800, 604800, 86400, 3600, 60]

/-- time-unit names; `units` in the source (line 58). -/
def units : List String := ["year", "month", "week", "day", "hour", "minute"]

/-- result record of `getDurationData` (source lines 147-159).  The fields
`unit` and `humanVal` are the source's local variables of the same names at
the point where the record is built; `dynamicDuration` is assembled from
them exactly as in the source, and they are exposed here so that the
specification can speak about the chosen unit and magnitude directly. -/
structure DurationData where
  dynamicDuration : String
  diff : Int
  endWord : String
  isPast : Bool
  prefixTxt : String
  startWord : String
  timeout : Int
  unit : String
  humanVal : Int
deriving Repr, DecidableEq

/-- the unit-selection `for` loop of `getDurationData` (source lines
125-137): walk the zipped `multipliers`/`units` arrays in order and break
at the first entry whose multiplier is strictly below `diff`. -/
def findUnit : List (Int × String) → Int → Option (Int × String)
  | [], _ => none
  | (m, u) :: rest, d => if d > m then some (m, u) else findUnit rest d

/-- body of `getDurationData` after the computation of
`diff = Math.floor((when - now) / 1000)` (source lines 65-160), factored
out over that initial signed difference `diff0` so that theorems can case
on it directly.  `endCtx` is the source's `end` argument (renamed because
`end` is a Lean keyword). -/
def getDurationDataCore (diff0 : Int) (before after start endCtx : String) :
    DurationData :=
  let isPast : Bool := decide (diff0 < 0)
  let diff : Int := if isPast then -diff0 else diff0
  let endWord : String := if isPast then " " ++ endCtx else ""
  let prefixTxt : String := if isPast then after else before
  let startWord : String := if isPast then "" else " " ++ start
  let sel : Option (Int × String) := findUnit (multipliers.zip units) diff
  let next1 : Int :=
    match sel with
    | some (m, _) =>
        if 0 < Int.emod diff m ∧ isPast = false then Int.emod diff m else m
    | none => 1
  let humanVal : Int :=
    match sel with
    | some (m, _) => Int.fdiv diff m
    | none => diff
  let unit : String :=
    match sel with
    | some (_, u) => u
    | none => "second"
  let next : Int := if diff ≠ 0 ∧ Int.emod next1 60 = 0 then 1 else next1
  { dynamicDuration :=
      if diff = 0 then "now"
      else toString humanVal ++ " " ++ unit ++ (if humanVal ≠ 1 then "s" else ""),
    diff := diff,
    endWord := endWord,
    isPast := isPast,
    prefixTxt := prefixTxt,
    startWord := if diff = 0 then "" else startWord,
    timeout := next * 1000,
    unit := unit,
    humanVal := humanVal }

/-- embedding of `getDurationData(now, when, before, after, start, end)`
(source lines 41-160): compute `diff = Math.floor((when - now) / 1000)`
(line 65) and run the rest of the body. -/
def getDurationData (now whenMs : Int) (before after start endCtx : String) :
    DurationData :=
  getDurationDataCore (Int.fdiv (whenMs - now) 1000) before after start endCtx

/-- spec-side definition, following the spec's words in §4.1 step 3: the
chosen threshold is the first (hence largest) fixed-length unit threshold
in descending order that the absolute gap strictly exceeds, falling
through to the minute threshold. -/
def specChosenThreshold (g : Int) : Int :=
  if 31557600 < g then 31557600
  else if 2629800 < g then 2629800
  else if 604800 < g then 604800
  else if 86400 < g then 86400
  else if 3600 < g then 3600
  else 60

/-- spec-side definition, following the spec's words in §4.1 step 3: the
name of the largest unit whose threshold the absolute gap strictly
exceeds, falling through to minute. -/
def specUnitOf (g : Int) : String :=
  if 31557600 < g then "year"
  else if 2629800 < g then "month"
  else if 604800 < g then "week"
  else if 86400 < g then "day"
  else if 3600 < g then "hour"
  else "minute"

/-- spec-side definition, following the spec's words in §4.1 step 6: with
`remainder = absGap mod chosenThreshold`, the next boundary is `remainder`
seconds away when the cut-off is in the future and `remainder > 0`, and a
full `chosenThreshold` seconds away otherwise; a delay that is an exact
multiple of 60 is forced to 1 second. -/
def specNextDelaySeconds (g : Int) (future : Bool) : Int :=
  let m := specChosenThreshold g
  let r := Int.emod g m
  let pre := if future = true ∧ 0 < r then r else m
  if Int.emod pre 60 = 0 then 1 else pre

/-- the component props that the embedded members read (source lines
165-230).  `endCtx` is the source prop `end`; `whenProp` is the source prop
`when`; `msgPrefix`/`msgSuffix`/`id` are template-only pass-through strings
with no effect on the algorithm (`id` is only read into an unused local),
so they are not modelled. -/
structure TimedMsgProps where
  after : String := "Expired"
  before : String := "Expires"
  endCtx : String := "ago"
  noticeAt : Int := -1
  start : String := "in"
  warnAt : Int := -1
  whenProp : String := ""
deriving Repr, DecidableEq

/-- the component's `data()` fields used by the embedded members (source
lines 232-319).  A JS number that may be `NaN` is an `Option Int` with
`none` for `NaN`; `timeouts` holds the pending `(handle, delayMs)` pairs
pushed by `setTimeout`. -/
structure TimedMsgState where
  diff : Option Int
  endWord : String
  humanPrefix : String
  dynamicDuration : String
  cutoffDateTime : String
  isPast : Bool
  lastUpdated : Int
  oldWhen : String
  startWord : String
  timestamp : Option Int
  timeouts : List (Nat × Int)
deriving Repr, DecidableEq

/-- JS comparison `x <= y` where `x` may be `NaN` (`none`): every
comparison against `NaN` is false. -/
def jsLe (x : Option Int) (y : Int) : Bool :=
  match x with
  | none => false
  | some d => decide (d ≤ y)

/-- embedding of the computed property `wrapClass` (source lines 322-335). -/
def wrapClass (p : TimedMsgProps) (s : TimedMsgState) : String :=
  let tmp := "timed-msg"
  if s.isPast = true then tmp ++ " " ++ tmp ++ "--expired"
  else if decide (0 < p.warnAt) && jsLe s.diff p.warnAt then
    tmp ++ " " ++ tmp ++ "--warning"
  else if decide (0 < p.noticeAt) && jsLe s.diff p.noticeAt then
    tmp ++ " " ++ tmp ++ "--notice"
  else tmp

/-- embedding of the method `updateStrings` (source lines 339-369).
`now` is `Date.now()` and `fresh` the handle returned by `setTimeout`.
The `while` loop first clears every pending timeout.  When `timestamp` is
`NaN` (`none`, after an unparseable cut-off string), the source still calls
`getDurationData` and `NaN` propagates: `diff` is `NaN`, `NaN < 0` is
false, no loop guard `NaN > m` fires, `NaN !== 0` is true, `1 % 60 !== 0`,
so the record is `"NaN seconds"` with empty `endWord`, `prefixTxt =
before`, `startWord = " " + start`, `timeout = 1000`, and `NaN < 28800` is
false so no timer is armed; that branch is spelled out below. -/
def updateStrings (now : Int) (fresh : Nat) (p : TimedMsgProps)
    (s : TimedMsgState) : TimedMsgState :=
  match s.timestamp with
  | some ts =>
    let tmp := getDurationData now ts p.before p.after p.start p.endCtx
    let s1 : TimedMsgState := { s with
      timeouts := [],
      dynamicDuration := tmp.dynamicDuration,
      endWord := tmp.endWord,
      isPast := tmp.isPast,
      humanPrefix := tmp.prefixTxt,
      startWord := tmp.startWord,
      diff := some tmp.diff,
      lastUpdated := now }
    if tmp.diff < 28800 then { s1 with timeouts := [(fresh, tmp.timeout)] }
    else s1
  | none =>
    { s with
      timeouts := [],
      dynamicDuration := "NaN seconds",
      endWord := "",
      isPast := false,
      humanPrefix := p.before,
      startWord := " " ++ p.start,
      diff := none,
      lastUpdated := now }

/-- embedding of the method `preset` (source lines 371-398).  `parse`
models the external `new Date(string)` / `getTime()` pair: `some t` for a
parseable ISO 8601 string, `none` when the result is an Invalid Date whose
`getTime()` is `NaN`.  For string inputs the `Date` constructor never
throws, so the `catch` branch (which would return early) is dead code; the
Invalid-Date check only logs to the console and execution falls through —
there is no early return — so `cutoffDateTime` is still assembled (both
locale calls render `"Invalid Date"`), `timestamp` becomes `NaN` and
`updateStrings` still runs.  `fmtDate` models the locale formatting of a
valid date. -/
def preset (parse : String → Option Int) (fmtDate : Int → String)
    (now : Int) (fresh : Nat) (p : TimedMsgProps) (s : TimedMsgState) :
    TimedMsgState :=
  if p.whenProp ≠ s.oldWhen then
    let s1 : TimedMsgState := { s with oldWhen := p.whenProp }
    match parse p.whenProp with
    | some t =>
      let s2 : TimedMsgState :=
        { s1 with cutoffDateTime := fmtDate t, timestamp := some t }
      updateStrings now fresh p s2
    | none =>
      let s2 : TimedMsgState :=
        { s1 with cutoffDateTime := "Invalid Date at Invalid Date",
                  timestamp := none }
      updateStrings now fresh p s2
  else s

/-- a concrete session state as it stands after a successful initial
`preset`: a stored cut-off string and epoch, displayed fields and one
pending timer. -/
def sampleSession : TimedMsgState :=
  { diff := some 60, endWord := "", humanPrefix := "Expires",
    dynamicDuration := "1 minute",
    cutoffDateTime := "Monday, 1 January 2024 at 10:01:00 am",
    isPast := false, lastUpdated := 5, oldWhen := "2024-01-01T00:01:00Z",
    startWord := " in", timestamp := some 60000, timeouts := [(7, 40000)] }

/-- the state produced by calling `preset` on `sampleSession` with a new
cut-off string that cannot be parsed (`parse` yields an Invalid Date). -/
def invalidPresetResult : TimedMsgState :=
  preset (fun _ => none) (fun _ => "formatted") 0 8
    { whenProp := "garbage" } sampleSession

/-- the unit-selection loop over the two zipped literal arrays is the
descending nested-condition cascade. -/
theorem findUnit_eq (d : Int) :
    findUnit (multipliers.zip units) d =
      if 31557600 < d then some (31557600, "year")
      else if 2629800 < d then some (2629800, "month")
      else if 604800 < d then some (604800, "week")
      else if 86400 < d then some (86400, "day")
      else if 3600 < d then some (3600, "hour")
      else if 60 < d then some (60, "minute")
      else none := by
  simp only [multipliers, units, List.zip, List.zipWith, findUnit]

/-- when the gap strictly exceeds the minute threshold, the loop picks the
spec-side chosen threshold and unit name. -/
theorem findUnit_spec (g : Int) (h60 : 60 < g) :
    findUnit (multipliers.zip units) g =
      some (specChosenThreshold g, specUnitOf g) := by
  rw [findUnit_eq]
  simp only [specChosenThreshold, specUnitOf]
  split_ifs <;> first | rfl | omega

/-- every unit threshold is divisible by 60. -/
theorem specChosenThreshold_emod60 (g : Int) :
    Int.emod (specChosenThreshold g) 60 = 0 := by
  simp only [specChosenThreshold]
  split_ifs <;> decide

/-- the chosen threshold is at least the minute threshold. -/
theorem specChosenThreshold_ge60 (g : Int) : 60 ≤ specChosenThreshold g := by
  simp only [specChosenThreshold]
  split_ifs <;> omega

/-- a gap that strictly exceeds the minute threshold strictly exceeds its
chosen threshold. -/
theorem specChosenThreshold_lt (g : Int) (h60 : 60 < g) :
    specChosenThreshold g < g := by
  simp only [specChosenThreshold]
  split_ifs <;> omega

/-- characterization of `getDurationDataCore` when the unit-selection loop
breaks at the pair `(m, u)`: the chosen unit, magnitude, direction flag,
next-tick timeout and rendered text, all as functions of the absolute gap
`g`. -/
theorem core_char (d0 g m : Int) (u : String) (before after start endCtx : String)
    (hg : (getDurationDataCore d0 before after start endCtx).diff = g)
    (hf : findUnit (multipliers.zip units) g = some (m, u)) :
    (getDurationDataCore d0 before after start endCtx).unit = u ∧
    (getDurationDataCore d0 before after start endCtx).humanVal = Int.fdiv g m ∧
    (getDurationDataCore d0 before after start endCtx).isPast = decide (d0 < 0) ∧
    (getDurationDataCore d0 before after start endCtx).timeout =
      (if g ≠ 0 ∧
          Int.emod (if 0 < Int.emod g m ∧ decide (d0 < 0) = false
                    then Int.emod g m else m) 60 = 0
       then 1
       else if 0 < Int.emod g m ∧ decide (d0 < 0) = false
            then Int.emod g m else m) * 1000 ∧
    (getDurationDataCore d0 before after start endCtx).dynamicDuration =
      (if g = 0 then "now"
       else toString (Int.fdiv g m) ++ " " ++ u ++
         (if Int.fdiv g m ≠ 1 then "s" else "")) := by
  simp only [getDurationDataCore] at hg
  simp only [getDurationDataCore, hg, hf]
  exact ⟨trivial, trivial, trivial, trivial, trivial⟩

/-- the spec-side chosen pair is an entry of the zipped unit tables. -/
theorem spec_pair_mem (g : Int) :
    (specChosenThreshold g, specUnitOf g) ∈ multipliers.zip units := by
  simp only [specChosenThreshold, specUnitOf, multipliers, units]
  split_ifs <;> simp

/-- the spec-side chosen threshold is maximal among the thresholds the gap
strictly exceeds. -/
theorem spec_threshold_max (g : Int) :
    ∀ m' ∈ multipliers, m' < g → m' ≤ specChosenThreshold g := by
  intro m' hm' hlt
  simp only [multipliers, List.mem_cons, List.not_mem_nil, or_false] at hm'
  simp only [specChosenThreshold]
  rcases hm' with h | h | h | h | h | h <;> subst h <;> split_ifs <;> omega

/-- C1 fails on the code: for a 45-second gap (which is positive and does
not strictly exceed any threshold down to hour) the chosen unit is
`"second"`, not `"minute"`, and the rendered text is `"45 seconds"`, not
`"0 minutes"` — the loop never runs, so `unit` keeps its initialization
`'second'`. -/
theorem claim1_counterexample :
    (getDurationData 0 45000 "Expires" "Expired" "in" "ago").unit ≠ "minute" ∧
    (getDurationData 0 45000 "Expires" "Expired" "in" "ago").dynamicDuration ≠
      "0 minutes" ∧
    (getDurationData 0 45000 "Expires" "Expired" "in" "ago").unit = "second" ∧
    (getDurationData 0 45000 "Expires" "Expired" "in" "ago").dynamicDuration =
      "45 seconds" := by
  decide

/-- C1 (amended): for every call whose absolute gap `g` is positive and
does not strictly exceed any threshold down to hour (`g ≤ 3600`), the unit
is `"minute"` with magnitude `⌊g / 60⌋` only when `g` strictly exceeds 60;
when `g ≤ 60` the unit stays `"second"` with magnitude `g`, so a 45-second
gap renders as `"45 seconds"`. -/
theorem claim1_amended (now whenMs : Int) (before after start endCtx : String)
    (g : Int)
    (hd : (getDurationData now whenMs before after start endCtx).diff = g)
    (h0 : 0 < g) (h1 : g ≤ 3600) :
    (60 < g →
       (getDurationData now whenMs before after start endCtx).unit = "minute" ∧
       (getDurationData now whenMs before after start endCtx).humanVal =
         Int.fdiv g 60) ∧
    (g ≤ 60 →
       (getDurationData now whenMs before after start endCtx).unit = "second" ∧
       (getDurationData now whenMs before after start endCtx).humanVal = g ∧
       (getDurationData now whenMs before after start endCtx).dynamicDuration =
         toString g ++ " " ++ "second" ++ (if g ≠ 1 then "s" else "")) := by
  simp only [getDurationData] at hd ⊢
  set d0 := Int.fdiv (whenMs - now) 1000 with hd0
  constructor
  · intro h60
    obtain ⟨hu, hh, hip, hto, hdd⟩ :=
      core_char d0 g (specChosenThreshold g) (specUnitOf g) before after start
        endCtx hd (findUnit_spec g h60)
    have hm : specChosenThreshold g = 60 := by
      simp only [specChosenThreshold]
      split_ifs <;> omega
    have hun : specUnitOf g = "minute" := by
      simp only [specUnitOf]
      split_ifs <;> first | rfl | omega
    rw [hu, hun, hh, hm]
    exact ⟨rfl, rfl⟩
  · intro h60
    have hfnone : findUnit (multipliers.zip units) g = none := by
      rw [findUnit_eq]
      split_ifs <;> first | rfl | omega
    have hgne : ¬ (g = 0) := by omega
    simp only [getDurationDataCore] at hd
    simp only [getDurationDataCore, hd, hfnone, if_neg hgne]
    exact ⟨trivial, trivial, trivial⟩

/-- C1 (amended) at the concrete gap of 100 seconds: unit `"minute"`,
magnitude `⌊100 / 60⌋ = 1`. -/
theorem claim1_amended_witness :
    (getDurationData 0 100000 "Expires" "Expired" "in" "ago").unit = "minute" ∧
    (getDurationData 0 100000 "Expires" "Expired" "in" "ago").humanVal =
      Int.fdiv 100 60 :=
  (claim1_amended 0 100000 "Expires" "Expired" "in" "ago" 100 (by decide)
    (by decide) (by decide)).1 (by decide)

/-- C2: for every call whose absolute gap strictly exceeds some unit
threshold, the returned timeout is 1000 times the spec's next-delay
formula (remainder seconds when the cut-off is in the future and the
remainder is positive, a full chosen threshold otherwise, with an exact
multiple of 60 forced to 1 second), and it is always at least 1000 ms. -/
theorem claim2_next_delay (now whenMs : Int) (before after start endCtx : String)
    (g : Int)
    (hd : (getDurationData now whenMs before after start endCtx).diff = g)
    (h60 : 60 < g) :
    (getDurationData now whenMs before after start endCtx).timeout =
      1000 * specNextDelaySeconds g
        (!(getDurationData now whenMs before after start endCtx).isPast) ∧
    1000 ≤ (getDurationData now whenMs before after start endCtx).timeout := by
  simp only [getDurationData] at hd ⊢
  set d0 := Int.fdiv (whenMs - now) 1000 with hd0
  obtain ⟨hu, hh, hip, hto, hdd⟩ :=
    core_char d0 g (specChosenThreshold g) (specUnitOf g) before after start
      endCtx hd (findUnit_spec g h60)
  rw [hto, hip]
  have hm60 : Int.emod (specChosenThreshold g) 60 = 0 := specChosenThreshold_emod60 g
  have hge : 60 ≤ specChosenThreshold g := specChosenThreshold_ge60 g
  have hr0 : 0 ≤ Int.emod g (specChosenThreshold g) := Int.emod_nonneg g (by omega)
  have hrlt : Int.emod g (specChosenThreshold g) < specChosenThreshold g :=
    Int.emod_lt_of_pos g (by omega)
  have hgne : g ≠ 0 := by omega
  simp only [specNextDelaySeconds]
  by_cases hpast : d0 < 0
  · simp only [hpast, decide_True, Bool.not_true, Bool.true_eq_false, and_false,
      false_and, if_false, Bool.false_eq_true, hgne, hm60, ne_eq,
      not_false_eq_true, true_and, if_true]
    omega
  · simp only [hpast, decide_False, Bool.not_false, Bool.false_eq_true, and_true,
      true_and, Bool.true_eq_false, ne_eq, hgne, not_false_eq_true, if_true]
    by_cases hrpos : 0 < Int.emod g (specChosenThreshold g)
    · simp only [hrpos, if_true, if_pos]
      by_cases hf60 : Int.emod (Int.emod g (specChosenThreshold g)) 60 = 0
      · simp only [hf60, if_true, and_true, true_and]
        omega
      · simp only [hf60, if_false, and_false, false_and]
        omega
    · simp only [hrpos, if_false]
      simp only [hm60, if_true]
      omega

/-- C2 at the concrete future gap of 7260 seconds (2 h 1 min): the code's
timeout equals the spec formula (remainder 60 s, forced to 1 s) and is at
least 1000 ms. -/
theorem claim2_next_delay_witness :
    (getDurationData 0 7260000 "Expires" "Expired" "in" "ago").timeout =
      1000 * specNextDelaySeconds 7260
        (!(getDurationData 0 7260000 "Expires" "Expired" "in" "ago").isPast) ∧
    1000 ≤ (getDurationData 0 7260000 "Expires" "Expired" "in" "ago").timeout :=
  claim2_next_delay 0 7260000 "Expires" "Expired" "in" "ago" 7260 (by decide)
    (by decide)

/-- C3: the code contradicts the claim — calling `preset` with a changed
but unparseable cut-off string does mutate prior session state.  The
Invalid-Date branch only logs and does not return, so the stored cut-off
string and epoch change (`timestamp` becomes `NaN`), the pending timer is
cancelled, and the displayed fields are overwritten with `"NaN seconds"`. -/
theorem claim3_invalid_cutoff_mutates_state :
    invalidPresetResult.oldWhen = "garbage" ∧
    invalidPresetResult.oldWhen ≠ sampleSession.oldWhen ∧
    invalidPresetResult.timestamp = none ∧
    invalidPresetResult.timestamp ≠ sampleSession.timestamp ∧
    invalidPresetResult.timeouts = [] ∧
    invalidPresetResult.timeouts ≠ sampleSession.timeouts ∧
    invalidPresetResult.dynamicDuration = "NaN seconds" ∧
    invalidPresetResult.cutoffDateTime = "Invalid Date at Invalid Date" := by
  decide

/-- C4: after `updateStrings` on a session with a stored (non-`NaN`)
timestamp, exactly one new timer is pending, armed for the computed delay,
precisely when the absolute gap is below 28800 s; at or above the ceiling
the pending-timer list is empty.  In both cases every previously pending
timer has been cancelled (the resulting list never contains old handles). -/
theorem claim4_reschedule_ceiling (now : Int) (fresh : Nat) (p : TimedMsgProps)
    (s : TimedMsgState) (ts : Int) (h : s.timestamp = some ts) :
    ((getDurationData now ts p.before p.after p.start p.endCtx).diff < 28800 →
       (updateStrings now fresh p s).timeouts =
         [(fresh, (getDurationData now ts p.before p.after p.start p.endCtx).timeout)]) ∧
    (28800 ≤ (getDurationData now ts p.before p.after p.start p.endCtx).diff →
       (updateStrings now fresh p s).timeouts = []) := by
  refine ⟨fun hc => ?_, fun hc => ?_⟩
  · simp [updateStrings, h, hc]
  · have hn : ¬ (getDurationData now ts p.before p.after p.start p.endCtx).diff
        < 28800 := by
      omega
    simp [updateStrings, h, hn]

/-- C4 at a concrete session with a 60-second gap (below the ceiling) and a
stale pending timer: exactly the one fresh timer remains, armed for the
computed delay. -/
theorem claim4_reschedule_ceiling_witness :
    (updateStrings 0 3 { whenProp := "x" } sampleSession).timeouts =
      [(3, (getDurationData 0 60000 "Expires" "Expired" "in" "ago").timeout)] :=
  (claim4_reschedule_ceiling 0 3 { whenProp := "x" } sampleSession 60000 rfl).1
    (by decide)

/-- C5: when `now` equals the cut-off the gap is zero seconds and
`getDurationData` renders the literal `"now"` with both the leading and
the trailing connector empty, for every phrase configuration. -/
theorem claim5_zero_gap (now : Int) (before after start endCtx : String) :
    (getDurationData now now before after start endCtx).dynamicDuration = "now" ∧
    (getDurationData now now before after start endCtx).startWord = "" ∧
    (getDurationData now now before after start endCtx).endWord = "" := by
  simp [getDurationData, getDurationDataCore, sub_self, Int.zero_fdiv, findUnit_eq]

/-- C6: for every call whose absolute gap `g` strictly exceeds the minute
threshold, the chosen unit is the largest unit whose fixed-length
threshold `g` strictly exceeds, the magnitude is the non-negative integer
`⌊g / threshold⌋`, and the rendered text carries a trailing `"s"` exactly
when the magnitude differs from 1; in particular the 3661-second gap
yields unit `hour`, magnitude 1 and rendered text `"1 hour"`. -/
theorem claim6_unit_selection (now whenMs : Int) (before after start endCtx : String)
    (g : Int)
    (hd : (getDurationData now whenMs before after start endCtx).diff = g)
    (h60 : 60 < g) :
    (∃ m : Int,
       (m, (getDurationData now whenMs before after start endCtx).unit) ∈
         multipliers.zip units ∧
       m < g ∧
       (∀ m' ∈ multipliers, m' < g → m' ≤ m) ∧
       0 ≤ (getDurationData now whenMs before after start endCtx).humanVal ∧
       (getDurationData now whenMs before after start endCtx).humanVal =
         Int.fdiv g m ∧
       (getDurationData now whenMs before after start endCtx).dynamicDuration =
         toString (Int.fdiv g m) ++ " " ++
           (getDurationData now whenMs before after start endCtx).unit ++
           (if Int.fdiv g m ≠ 1 then "s" else "")) ∧
    (getDurationData 0 3661000 before after start endCtx).unit = "hour" ∧
    (getDurationData 0 3661000 before after start endCtx).humanVal = 1 ∧
    (getDurationData 0 3661000 before after start endCtx).dynamicDuration =
      "1 hour" := by
  refine ⟨?_, rfl, rfl, rfl⟩
  simp only [getDurationData] at hd ⊢
  set d0 := Int.fdiv (whenMs - now) 1000 with hd0
  obtain ⟨hu, hh, hip, hto, hdd⟩ :=
    core_char d0 g (specChosenThreshold g) (specUnitOf g) before after start
      endCtx hd (findUnit_spec g h60)
  have hgne : ¬ (g = 0) := by omega
  refine ⟨specChosenThreshold g, ?_, specChosenThreshold_lt g h60,
    spec_threshold_max g, ?_, hh, ?_⟩
  · rw [hu]
    exact spec_pair_mem g
  · rw [hh]
    exact Int.fdiv_nonneg (by omega) (by have := specChosenThreshold_ge60 g; omega)
  · rw [hdd, hu, if_neg hgne]

/-- C6 at the concrete gap of 3661 seconds: the chosen threshold is the
hour (3600 s), it is the largest one exceeded, the magnitude is 1 and the
rendered text is the singular `"1 hour"`. -/
theorem claim6_unit_selection_witness :
    (∃ m : Int,
       (m, (getDurationData 0 3661000 "Expires" "Expired" "in" "ago").unit) ∈
         multipliers.zip units ∧
       m < 3661 ∧
       (∀ m' ∈ multipliers, m' < 3661 → m' ≤ m) ∧
       0 ≤ (getDurationData 0 3661000 "Expires" "Expired" "in" "ago").humanVal ∧
       (getDurationData 0 3661000 "Expires" "Expired" "in" "ago").humanVal =
         Int.fdiv 3661 m ∧
       (getDurationData 0 3661000 "Expires" "Expired" "in" "ago").dynamicDuration =
         toString (Int.fdiv 3661 m) ++ " " ++
           (getDurationData 0 3661000 "Expires" "Expired" "in" "ago").unit ++
           (if Int.fdiv 3661 m ≠ 1 then "s" else "")) ∧
    (getDurationData 0 3661000 "Expires" "Expired" "in" "ago").unit = "hour" ∧
    (getDurationData 0 3661000 "Expires" "Expired" "in" "ago").humanVal = 1 ∧
    (getDurationData 0 3661000 "Expires" "Expired" "in" "ago").dynamicDuration =
      "1 hour" :=
  claim6_unit_selection 0 3661000 "Expires" "Expired" "in" "ago" 3661 (by decide)
    (by decide)

/-- C7 fails on the code at a gap of exactly zero: the symmetric call
`getDurationData (now + 0) now …` returns `isPast = false`, not `true`,
because `diff < 0` is false when `diff = 0`. -/
theorem claim7_counterexample :
    ¬ ((getDurationData (0 + 0) 0 "Expires" "Expired" "in" "ago").isPast = true) := by
  decide

/-- C7 (amended): for every gap ≥ 0 (in ms) the forward call reports
`isPast = false`, and the symmetric call reports `isPast = true` whenever
the gap is strictly positive; at gap exactly zero both calls report
`isPast = false`. -/
theorem claim7_amended (now gap : Int) (before after start endCtx : String)
    (hg : 0 ≤ gap) :
    (getDurationData now (now + gap) before after start endCtx).isPast = false ∧
    (0 < gap →
      (getDurationData (now + gap) now before after start endCtx).isPast = true) := by
  constructor
  · have he : now + gap - now = gap := by ring
    have h1 : (0:Int) ≤ Int.fdiv gap 1000 := Int.fdiv_nonneg hg (by norm_num)
    simp [getDurationData, getDurationDataCore, he]
    omega
  · intro hpos
    have he : now - (now + gap) = -gap := by ring
    have h1 : Int.fdiv (-gap) 1000 < 0 := Int.fdiv_neg' (by omega) (by norm_num)
    simp [getDurationData, getDurationDataCore, he]
    omega

/-- C7 (amended) at the concrete gap of 5000 ms: the forward call is not
past, the symmetric call is past. -/
theorem claim7_amended_witness :
    (getDurationData 0 (0 + 5000) "Expires" "Expired" "in" "ago").isPast = false ∧
    (getDurationData (0 + 5000) 0 "Expires" "Expired" "in" "ago").isPast = true :=
  ⟨(claim7_amended 0 5000 "Expires" "Expired" "in" "ago" (by decide)).1,
   (claim7_amended 0 5000 "Expires" "Expired" "in" "ago" (by decide)).2 (by decide)⟩

/-- C8: the urgency classification of `wrapClass` is `expired` when
`isPast`, else `warning` when `warnAt > 0` and `diff ≤ warnAt`, else
`notice` when `noticeAt > 0` and `diff ≤ noticeAt`, else the plain class;
warning is checked before notice, and non-positive thresholds disable
their class. -/
theorem claim8_urgency (p : TimedMsgProps) (s : TimedMsgState) (d : Int)
    (hd : s.diff = some d) :
    (s.isPast = true → wrapClass p s = "timed-msg timed-msg--expired") ∧
    (s.isPast = false → 0 < p.warnAt → d ≤ p.warnAt →
       wrapClass p s = "timed-msg timed-msg--warning") ∧
    (s.isPast = false → ¬ (0 < p.warnAt ∧ d ≤ p.warnAt) →
       0 < p.noticeAt → d ≤ p.noticeAt →
       wrapClass p s = "timed-msg timed-msg--notice") ∧
    (s.isPast = false → ¬ (0 < p.warnAt ∧ d ≤ p.warnAt) →
       ¬ (0 < p.noticeAt ∧ d ≤ p.noticeAt) →
       wrapClass p s = "timed-msg") := by
  refine ⟨fun h1 => ?_, fun h1 h2 h3 => ?_, fun h1 h2 h3 h4 => ?_,
    fun h1 h2 h3 => ?_⟩
  · simp_all [wrapClass, jsLe]
  · simp_all [wrapClass, jsLe]
  · simp_all [wrapClass, jsLe]
  · have hw : ¬ (0 < p.warnAt ∧ d ≤ p.warnAt) := h2
    have hn : ¬ (0 < p.noticeAt ∧ d ≤ p.noticeAt) := h3
    simp only [wrapClass, jsLe, hd, h1, Bool.false_eq_true, Bool.and_eq_true,
      decide_eq_true_eq, if_false]
    rw [if_neg hw, if_neg hn]

/-- C8 at the spec's precedence example: `warnAt = 3600`, `noticeAt = 7200`
and `diff = 1800` (both thresholds apply) classifies as warning. -/
theorem claim8_urgency_witness :
    wrapClass { noticeAt := 7200, warnAt := 3600, whenProp := "" }
      { diff := some 1800, endWord := "", humanPrefix := "Expires",
        dynamicDuration := "30 minutes", cutoffDateTime := "", isPast := false,
        lastUpdated := 0, oldWhen := "", startWord := " in",
        timestamp := some 1800000, timeouts := [] } =
      "timed-msg timed-msg--warning" :=
  (claim8_urgency { noticeAt := 7200, warnAt := 3600, whenProp := "" }
    { diff := some 1800, endWord := "", humanPrefix := "Expires",
      dynamicDuration := "30 minutes", cutoffDateTime := "", isPast := false,
      lastUpdated := 0, oldWhen := "", startWord := " in",
      timestamp := some 1800000, timeouts := [] } 1800 rfl).2.1 rfl (by decide)
    (by decide)

/-- C9: calling `preset` again with a cut-off string identical to the
stored one is a no-op — the state, including the pending timer list, the
stored epoch and every displayed field, is returned unchanged. -/
theorem claim9_idempotent (parse : String → Option Int) (fmtDate : Int → String)
    (now : Int) (fresh : Nat) (p : TimedMsgProps) (s : TimedMsgState)
    (h : p.whenProp = s.oldWhen) :
    preset parse fmtDate now fresh p s = s := by
  simp [preset, h]

/-- C9 at a concrete session: re-presenting the already-stored cut-off
string returns the very same state. -/
theorem claim9_idempotent_witness :
    preset (fun _ => none) (fun _ => "formatted") 0 9
      { whenProp := "2024-01-01T00:01:00Z" } sampleSession = sampleSession :=
  claim9_idempotent (fun _ => none) (fun _ => "formatted") 0 9
    { whenProp := "2024-01-01T00:01:00Z" } sampleSession rfl

/-- C10: for every call with a cut-off in the past, the returned timeout is
exactly 1000 ms: every unit threshold is divisible by 60, so the past
branch's full-threshold delay is always forced down to 1 second, and a
sub-minute past gap keeps the initial 1-second delay. -/
theorem claim10_past_timeout (now whenMs : Int) (before after start endCtx : String)
    (h : (getDurationData now whenMs before after start endCtx).isPast = true) :
    (getDurationData now whenMs before after start endCtx).timeout = 1000 := by
  simp only [getDurationData, getDurationDataCore, decide_eq_true_eq] at h
  simp only [getDurationData, getDurationDataCore, findUnit_eq, h]
  split_ifs <;>
    simp_all [(by decide : Int.emod 31557600 60 = 0),
      (by decide : Int.emod 2629800 60 = 0), (by decide : Int.emod 604800 60 = 0),
      (by decide : Int.emod 86400 60 = 0), (by decide : Int.emod 3600 60 = 0),
      (by decide : Int.emod 60 60 = 0), (by decide : Int.emod 1 60 = 1)]

/-- C10 at a cut-off 90000 seconds in the past (25 h ago, unit day): the
timeout is exactly 1000 ms. -/
theorem claim10_past_timeout_witness :
    (getDurationData 0 (-90000000) "Expires" "Expired" "in" "ago").timeout = 1000 :=
  claim10_past_timeout 0 (-90000000) "Expires" "Expired" "in" "ago" (by decide)

end TimedMsg
